import Mathlib

/-!
# Verification of the interview-practice session engine

Shallow embedding of the interview session lifecycle engine
(`src/unnamed/part_003`) and client auth session module
(`src/unnamed/part_002`) of the Career-Hero frontend, together with
theorems settling the specification claims about them.

Untyped JavaScript values flowing over the wire are modelled by `JSValue`;
session records and auth states are modelled by structures mirroring the
TypeScript types.  Entropy sources (`Date.now()`, random ids) and the
date parser are passed in as explicit parameters.
-/

section StringHelpers

/-- Whitespace characters trimmed by JavaScript `String.prototype.trim`
(restricted to the ASCII whitespace occurring in this code base). -/
def isWsChar (c : Char) : Bool := c = ' ' || c = '\t' || c = '\n' || c = '\r'

/-- Drop leading whitespace characters. -/
def dropWsChars : List Char → List Char
  | [] => []
  | c :: rest => if isWsChar c then dropWsChars rest else c :: rest

/-- JavaScript `s.trim()`.  (Implemented over the character list so that it
evaluates inside the kernel.) -/
def jsTrim (s : String) : String :=
  String.mk ((dropWsChars (dropWsChars s.data).reverse).reverse)

/-- JavaScript `s.length` (all strings in this code base are in the basic
multilingual plane, where UTF-16 length equals character count). -/
def jsLen (s : String) : Nat := s.data.length

/-- ASCII lower-casing of a character (sufficient for the status/mode
strings compared by the code). -/
def lcChar (c : Char) : Char :=
  if 'A' ≤ c && c ≤ 'Z' then Char.ofNat (c.toNat + 32) else c

/-- JavaScript `s.toLowerCase()` on the ASCII strings used here. -/
def jsToLower (s : String) : String := String.mk (s.data.map lcChar)

/-- Split a character list at newline characters (the code splits on
`/\r?\n/` and then trims each line, so splitting at `'\n'` followed by
trimming is equivalent). -/
def splitLinesAux : List Char → List Char → List (List Char)
  | [], acc => [acc.reverse]
  | c :: rest, acc =>
      if c = '\n' then acc.reverse :: splitLinesAux rest []
      else splitLinesAux rest (c :: acc)

/-- The lines of a string. -/
def jsLines (s : String) : List String :=
  (splitLinesAux s.data []).map String.mk

/-- The accumulated value of a non-empty run of decimal digits. -/
def digitsToNat (l : List Char) : Option Nat :=
  if l.isEmpty then none
  else some (l.foldl (fun a c => a * 10 + (c.toNat - 48)) 0)

/-- The leading run of decimal digits. -/
def takeDigits : List Char → List Char
  | [] => []
  | c :: rest => if c.isDigit then c :: takeDigits rest else []

/-- JavaScript `Number.parseInt(s, 10)`: skip leading whitespace, accept an
optional sign, then read a non-empty run of digits; `none` models `NaN`
(which fails the `Number.isFinite` check). -/
def parseIntJs (s : String) : Option Int :=
  match dropWsChars s.data with
  | '-' :: rest => (digitsToNat (takeDigits rest)).map (fun n => -(n : Int))
  | '+' :: rest => (digitsToNat (takeDigits rest)).map (fun n => (n : Int))
  | l => (digitsToNat (takeDigits l)).map (fun n => (n : Int))

end StringHelpers

/-- Model of an untyped JavaScript/JSON value.  `undefined` and `null` are
both represented by `null` (the code only distinguishes them through `??`
and truthiness, which treat them identically). Numbers are modelled as
integers (all numbers the code manipulates are integral). -/
inductive JSValue where
  | null : JSValue
  | bool (b : Bool) : JSValue
  | num (n : Int) : JSValue
  | str (s : String) : JSValue
  | arr (items : List JSValue) : JSValue
  | obj (fields : List (String × JSValue)) : JSValue
deriving Repr

/-- Source `Math.min` on integers. -/
def jsMin (a b : Int) : Int := if a ≤ b then a else b

/-- Source `Math.max` on integers. -/
def jsMax (a b : Int) : Int := if a ≤ b then b else a

namespace JSValue

/-- Is the value `null`/`undefined`? -/
def isNull : JSValue → Bool
  | .null => true
  | _ => false

/-- JavaScript truthiness of a value. -/
def truthy : JSValue → Bool
  | .null => false
  | .bool b => b
  | .num n => n ≠ 0
  | .str s => s ≠ ""
  | .arr _ => true
  | .obj _ => true

/-- Source `a || b` on JavaScript values. -/
def jsOr (a b : JSValue) : JSValue := if a.truthy then a else b

/-- Source `a ?? b` on JavaScript values (`undefined`/`null` are both `null`). -/
def nullish (a b : JSValue) : JSValue := if a.isNull then b else a

/-- Lookup of a field in a list of object fields; missing → `null`
(i.e. `undefined`). -/
def fieldsLookup : List (String × JSValue) → String → JSValue
  | [], _ => .null
  | (k, v) :: rest, key => if k = key then v else fieldsLookup rest key

/-- Source `value[key]` property access: `null` (undefined) unless `value` is an
object holding the field.  (The code never accesses named properties of
arrays.) -/
def getField (v : JSValue) (key : String) : JSValue :=
  match v with
  | .obj fields => fieldsLookup fields key
  | _ => .null

/-- Source `isRecord(value)`: `typeof value === "object" && value !== null`.
Arrays are records too in JavaScript. -/
def isRecord : JSValue → Bool
  | .obj _ => true
  | .arr _ => true
  | _ => false

end JSValue

open JSValue

/-- Source `toSafeString(value, fallback)` from the source: the string itself when
the value is a string, else the fallback. -/
def toSafeString (v : JSValue) (fallback : String := "") : String :=
  match v with
  | .str s => s
  | _ => fallback

/-- Source `toSafeNumber(value)`: the number when the value is a (finite) number,
else `undefined`. -/
def toSafeNumber (v : JSValue) : Option Int :=
  match v with
  | .num n => some n
  | _ => none

/-- Source `toStringArray(value)`: keep the strings of an array, trim them and
drop the empty ones. -/
def toStringArray (v : JSValue) : List String :=
  match v with
  | .arr items =>
      ((items.filterMap fun it =>
        match it with
        | .str s => some s
        | _ => none).map jsTrim).filter (fun s => s ≠ "")
  | _ => []

/-- A question of an interview session (TypeScript type
`InterviewQuestion`). -/
structure InterviewQuestion where
  id : String
  text : String
  tips : List String
  index : Option Int := none
  category : String := ""
  focus : String := ""
deriving DecidableEq, Repr, Inhabited

/-- The review of a finished session (TypeScript type
`InterviewFeedback`). -/
structure InterviewFeedback where
  summary : String
  strengths : List String
  improvements : List String
  score : Option Int := none
deriving DecidableEq, Repr

/-- Execution mode of a session. -/
inductive InterviewMode where
  | remote : InterviewMode
  | local : InterviewMode
deriving DecidableEq, Repr

/-- Lifecycle status of a session (`active` = IN_PROGRESS, `paused` =
PAUSED, `finished` = COMPLETED). -/
inductive InterviewStatus where
  | active : InterviewStatus
  | paused : InterviewStatus
  | finished : InterviewStatus
deriving DecidableEq, Repr

/-- The wire string of a status, as fed back into `normalizeStatus` when
the code writes `sessionPayload.status || prev.status`. -/
def statusWire : InterviewStatus → String
  | .active => "active"
  | .paused => "paused"
  | .finished => "finished"

/-- A stored session record (TypeScript type `InterviewSessionRecord`).
The `answers` object is an association list with unique keys in insertion
order; optional fields absent in the source are the empty string /
`none`. -/
structure InterviewSessionRecord where
  key : String
  sessionId : String
  mode : InterviewMode
  status : InterviewStatus
  position : String
  jdText : String
  resumeText : String
  resumeContextKey : String := ""
  createdAt : String
  updatedAt : String
  questionCount : Int
  answeredCount : Int
  currentIndex : Int
  questions : List InterviewQuestion
  answers : List (String × String)
  feedback : Option InterviewFeedback
  remoteNumericId : Option Int := none
deriving DecidableEq, Repr

/-- JavaScript object update `{...m, [k]: v}`: an existing key keeps its
position and gets the new value, a new key is appended. -/
def setKey (m : List (String × String)) (k v : String) : List (String × String) :=
  if m.any (fun p => p.1 = k) then
    m.map (fun p => if p.1 = k then (k, v) else p)
  else m ++ [(k, v)]

/-- Source `inferPositionFromJd(jdText)`: first non-empty trimmed line, shortened
to 30 characters plus an ellipsis when longer. -/
def inferPositionFromJd (jdText : String) : String :=
  match ((jsLines jdText).map jsTrim).find? (fun l => l ≠ "") with
  | none => ""
  | some firstLine =>
      if jsLen firstLine ≤ 30 then firstLine
      else (String.mk (firstLine.data.take 30)).push '…'

/-- Source `buildLocalQuestions(position)`: the fixed three-question fallback
bank, keyed only by the (inferred) role name. -/
def buildLocalQuestions (position : String) : List InterviewQuestion :=
  let role := if jsTrim position ≠ "" then jsTrim position else "目标岗位"
  [ { id := "q-1"
    , text := "请你用 90 秒做一个与「" ++ role ++ "」相关的自我介绍。"
    , tips := ["突出与岗位最相关的经历", "给出 1-2 个量化结果"]
    , category := "self_intro"
    , focus := "岗位匹配" }
  , { id := "q-2"
    , text := "描述一个你解决复杂问题的案例：背景、动作、结果分别是什么？"
    , tips := ["建议使用“情境-任务-行动-结果”结构", "结果尽量给出数字"]
    , category := "project_depth"
    , focus := "项目深挖" }
  , { id := "q-3"
    , text := "如果你加入团队，前 30 天会如何快速创造价值？"
    , tips := ["拆分为学习、交付、协同三个维度"]
    , category := "onboarding"
    , focus := "落地计划" } ]

/-- The non-empty (after trimming) answer values of the answers object, in
insertion order — `Object.values(answers).filter(v => v.trim().length > 0)`. -/
def nonEmptyAnswerValues (answers : List (String × String)) : List String :=
  (answers.map Prod.snd).filter (fun v => jsLen (jsTrim v) > 0)

/-- The rounded average trimmed length of the non-empty answers:
`Math.round(sum / count)` (half-up rounding), `0` when there are none. -/
def avgAnswerLength (answers : List (String × String)) : Nat :=
  let l := nonEmptyAnswerValues answers
  if l.length = 0 then 0
  else (2 * (l.map (fun s => jsLen (jsTrim s))).sum + l.length) / (2 * l.length)

/-- Source `buildLocalFeedback(answers, totalQuestions, position)`: the
deterministic local review generator. -/
def buildLocalFeedback (answers : List (String × String)) (totalQuestions : Int)
    (position : String) : InterviewFeedback :=
  let answerList := nonEmptyAnswerValues answers
  let avgLength := avgAnswerLength answers
  let score : Int := jsMin 95 (45 + (answerList.length : Int) * 12
    + (if avgLength ≥ 80 then 12 else 0) + (if avgLength ≥ 140 then 6 else 0))
  let strengths :=
    (if (answerList.length : Int) ≥ min 3 totalQuestions then
      ["回答完整度较好，覆盖了主要问题"] else [])
    ++ (if avgLength ≥ 80 then ["表述细节较充分，具备一定说服力"] else [])
  let improvements :=
    (if avgLength < 80 then ["答案偏短，建议补充具体背景与结果数据"] else [])
    ++ ["每个回答都可补充“你做了什么、带来什么变化”来增强说服力"]
  { summary := "已完成 " ++ (if jsTrim position ≠ "" then jsTrim position else "目标岗位")
      ++ " 的模拟面试，建议继续打磨高频问题表达。"
  , strengths := strengths
  , improvements := improvements
  , score := some score }

/-- Source `toInterviewQuestion(value, fallbackId)`: tolerant decoding of a
question from a string or an object under several accepted field names. -/
def toInterviewQuestion (v : JSValue) (fallbackId : String) : Option InterviewQuestion :=
  match v with
  | .str s =>
      let text := jsTrim s
      if text = "" then none
      else some { id := fallbackId, text := text, tips := [] }
  | _ =>
      if !v.isRecord then none
      else
        let text := jsTrim (toSafeString (jsOr (jsOr (jsOr (v.getField "text")
          (v.getField "question")) (v.getField "questionText")) (v.getField "prompt")))
        if text = "" then none
        else
          let idRaw := jsTrim (toSafeString (jsOr (jsOr (jsOr (v.getField "id")
            (v.getField "questionId")) (v.getField "qid")) (v.getField "index")) fallbackId)
          let id := if idRaw = "" then fallbackId else idRaw
          let tips := toStringArray (nullish (nullish (v.getField "tips")
            (v.getField "hints")) (v.getField "keyPoints"))
          some { id := id, text := text, tips := tips
               , index := toSafeNumber (v.getField "index")
               , category := toSafeString (v.getField "category")
               , focus := toSafeString (v.getField "focus") }

/-- The first list candidate that decodes to a non-empty question list. -/
def questionListFromCandidates : List JSValue → Option (List InterviewQuestion)
  | [] => none
  | c :: rest =>
      match c with
      | .arr raw =>
          let mapped := raw.enum.filterMap
            (fun p => toInterviewQuestion p.2 ("q-" ++ toString (p.1 + 1)))
          if mapped.isEmpty then questionListFromCandidates rest else some mapped
      | _ => questionListFromCandidates rest

/-- Source `toQuestionList(payload)`: questions under any of several accepted list
field names, else a single question under the current/next-question
field names. -/
def toQuestionList (payload : JSValue) : List InterviewQuestion :=
  if !payload.isRecord then []
  else
    match questionListFromCandidates
        [payload.getField "questions", payload.getField "questionList",
         payload.getField "items", payload.getField "bank"] with
    | some mapped => mapped
    | none =>
        match toInterviewQuestion (nullish (nullish (payload.getField "currentQuestion")
            (payload.getField "question")) (payload.getField "nextQuestion")) "q-1" with
        | some q => [q]
        | none => []

/-- Source `toInterviewFeedback(payload)`: tolerant decoding of a review from a
payload (or its `feedback`/`feedbackDraft` sub-object). -/
def toInterviewFeedback (payload : JSValue) : Option InterviewFeedback :=
  if !payload.isRecord then none
  else
    let mf :=
      if (payload.getField "feedback").isRecord then payload.getField "feedback"
      else if (payload.getField "feedbackDraft").isRecord then payload.getField "feedbackDraft"
      else payload
    let summary := jsTrim (toSafeString (jsOr (jsOr (mf.getField "summary")
      (mf.getField "overall")) (mf.getField "comment")))
    let strengths := toStringArray (nullish (nullish (mf.getField "strengths")
      (mf.getField "highlights")) (mf.getField "goodPoints"))
    let improvements := toStringArray (nullish (nullish (nullish (mf.getField "improvements")
      (mf.getField "suggestions")) (mf.getField "gaps")) (mf.getField "improvementPlan"))
    let score := toSafeNumber (nullish (mf.getField "score") (mf.getField "overallScore"))
    if summary = "" && strengths.isEmpty && improvements.isEmpty && score.isNone then none
    else some
      { summary := if summary = "" then "本次练习已完成，继续打磨表达会更好。" else summary
      , strengths := strengths
      , improvements := improvements
      , score := score }

/-- Source `extractSessionId(payload)`: a session identifier found directly on the
payload or nested in its `session` object; `""` when absent. -/
def extractSessionId (payload : JSValue) : String :=
  if !payload.isRecord then ""
  else
    let direct := toSafeString (jsOr (jsOr (payload.getField "sessionId")
      (payload.getField "session_id")) (payload.getField "id"))
    if direct ≠ "" then direct
    else
      let session := payload.getField "session"
      if session.isRecord then
        toSafeString (jsOr (jsOr (jsOr (session.getField "id")
          (session.getField "sessionId")) (session.getField "session_id"))
          (session.getField "sessionToken"))
      else ""

/-- Source `normalizeStatus(value)`: decode a wire status string, defaulting to
`active`. -/
def normalizeStatus (v : JSValue) : InterviewStatus :=
  let raw := jsToLower (toSafeString v)
  if raw = "paused" then .paused
  else if raw = "finished" || raw = "completed" || raw = "done" then .finished
  else .active

/-- Source `normalizeRemoteSession(value)`: decode one item of the remote history
list into a session record (empty question list and answers; mode
`remote`).  `nowIso` stands for `new Date().toISOString()`. -/
def normalizeRemoteSession (nowIso : String) (v : JSValue) : Option InterviewSessionRecord :=
  if !v.isRecord then none
  else
    let idOpt := toSafeNumber (v.getField "id")
    let sessionToken := jsTrim (toSafeString (jsOr (jsOr (v.getField "sessionToken")
      (v.getField "session_id")) (v.getField "sessionId")))
    match idOpt with
    | none => none
    | some id =>
        if id = 0 || sessionToken = "" then none
        else
          let createdAt :=
            let c := toSafeString (v.getField "createdAt")
            if c ≠ "" then c else nowIso
          let updatedAt :=
            let u := toSafeString (v.getField "updatedAt")
            if u ≠ "" then u else createdAt
          some
            { key := "remote-history-" ++ toString id
            , sessionId := sessionToken
            , mode := .remote
            , status := normalizeStatus (v.getField "status")
            , position := ""
            , jdText := ""
            , resumeText := ""
            , resumeContextKey := toSafeString (v.getField "resumeContextKey")
            , createdAt := createdAt
            , updatedAt := updatedAt
            , questionCount := (toSafeNumber (v.getField "questionCount")).getD 0
            , answeredCount := (toSafeNumber (v.getField "answeredCount")).getD 0
            , currentIndex := jsMax 0 ((toSafeNumber (v.getField "currentIndex")).getD 0)
            , questions := []
            , answers := []
            , feedback := none
            , remoteNumericId := some id }

/-- The answers object of a stored record: keep the string-valued entries
(`Object.entries(answersRaw).reduce(...)`). -/
def decodeAnswers : JSValue → List (String × String)
  | .obj fields =>
      fields.foldl (fun acc p =>
        match p.2 with
        | .str s => setKey acc p.1 s
        | _ => acc) []
  | .arr items =>
      items.enum.foldl (fun acc p =>
        match p.2 with
        | .str s => setKey acc (toString p.1) s
        | _ => acc) []
  | _ => []

/-- Source `normalizeRecord(value)`: decode a locally stored session record,
keeping a stored `answeredCount`/`currentIndex` verbatim when present. -/
def normalizeRecord (v : JSValue) : Option InterviewSessionRecord :=
  if !v.isRecord then none
  else
    let key := toSafeString (v.getField "key")
    let sessionId := toSafeString (v.getField "sessionId")
    if key = "" || sessionId = "" then none
    else
      let modeRaw := jsToLower (toSafeString (v.getField "mode"))
      let mode : InterviewMode := if modeRaw = "remote" then .remote else .local
      let rawQuestions :=
        match v.getField "questions" with
        | .arr l => l
        | _ => []
      let questions := rawQuestions.enum.filterMap
        (fun p => toInterviewQuestion p.2 ("q-" ++ toString (p.1 + 1)))
      let answers := decodeAnswers (if (v.getField "answers").isRecord
        then v.getField "answers" else .obj [])
      let feedback := toInterviewFeedback (v.getField "feedback")
      some
        { key := key
        , sessionId := sessionId
        , mode := mode
        , status := normalizeStatus (v.getField "status")
        , position := toSafeString (v.getField "position")
        , jdText := toSafeString (v.getField "jdText")
        , resumeText := toSafeString (v.getField "resumeText")
        , resumeContextKey := toSafeString (v.getField "resumeContextKey")
        , createdAt := toSafeString (v.getField "createdAt")
        , updatedAt := toSafeString (v.getField "updatedAt")
        , questionCount := (toSafeNumber (v.getField "questionCount")).getD (questions.length : Int)
        , answeredCount := (toSafeNumber (v.getField "answeredCount")).getD (answers.length : Int)
        , currentIndex := (toSafeNumber (v.getField "currentIndex")).getD 0
        , questions := questions
        , answers := answers
        , feedback := feedback
        , remoteNumericId := toSafeNumber (v.getField "remoteNumericId") }

/-! ## The session lifecycle operations

Each operation is modelled as a pure function of the current session
record, the operation's inputs, and the outcome of the (at most one)
network round-trip it performs, given as `Option JSValue`: `some data`
is a successful call whose decoded JSON body is `data`, `none` is a
transport/availability failure (`callInterviewApi` threw).  Timestamps
(`new Date().toISOString()`, `Date.now()`) are passed as parameters.
Every result carries `networkAttempted`, true iff the code path reaches a
`callInterviewApi`/`fetch` call. -/

/-- Source `applySessionPatch(updater)`: apply a functional update and restore the
derived fields (`updatedAt`, `questionCount`, `answeredCount`; the latter
is the number of keys of the answers object). -/
def applySessionPatch (now : String) (updater : InterviewSessionRecord → InterviewSessionRecord)
    (prev : InterviewSessionRecord) : InterviewSessionRecord :=
  let next := updater prev
  { next with
    updatedAt := now
    questionCount := jsMax next.questionCount (next.questions.length : Int)
    answeredCount := (next.answers.length : Int) }

/-- The current question of a session:
`currentSession.questions[currentSession.currentIndex] ?? null`. -/
def currentQuestionOf (r : InterviewSessionRecord) : Option InterviewQuestion :=
  if r.currentIndex < 0 then none
  else r.questions.get? r.currentIndex.toNat

/-- Source `isRecord(data) ? data : {}` -/
def bodyOf (data : JSValue) : JSValue := if data.isRecord then data else .obj []

/-- Source `isRecord(body.session) ? body.session : {}` (the payload shape used by
`submitAnswer` and `nextQuestion`). -/
def sessionPayloadOf (data : JSValue) : JSValue :=
  let body := bodyOf data
  if (body.getField "session").isRecord then body.getField "session" else .obj []

/-- The next question decoded from an answer/advance response body
(`body.nextQuestion ?? body.question ?? body.currentQuestion`). -/
def maybeNextOf (fid : String) (data : JSValue) : Option InterviewQuestion :=
  let body := bodyOf data
  toInterviewQuestion (nullish (nullish (body.getField "nextQuestion")
    (body.getField "question")) (body.getField "currentQuestion")) fid

/-- Append a newly seen question unless one with the same id already
exists. -/
def advanceQuestions (qs : List InterviewQuestion) (mq : Option InterviewQuestion) :
    List InterviewQuestion :=
  match mq with
  | some nq => if qs.any (fun q => q.id = nq.id) then qs else qs ++ [nq]
  | none => qs

/-- The pre-clamp next index adopted from a remote response: the server's
reported index (floored at 0) when present, else the position of the newly
seen question, else the previous index. -/
def advanceNextIndex (prevIdx : Int) (remoteIndex : Option Int)
    (mq : Option InterviewQuestion) (questions : List InterviewQuestion) : Int :=
  match remoteIndex with
  | some i => jsMax 0 i
  | none =>
      match mq with
      | some nq =>
          match questions.findIdx? (fun q => q.id = nq.id) with
          | some j => (j : Int)
          | none => prevIdx
      | none => prevIdx

/-- Result of starting a session: `record = none` is the synchronous
validation failure (missing job/role text). -/
structure StartResult where
  record : Option InterviewSessionRecord
  networkAttempted : Bool
deriving DecidableEq, Repr

/-- Source `startSession`: validate the job text, then create the session from
the remote create response, or a local-fallback session when every remote
call fails (or no session id can be extracted).  `remoteKey`/`localKey`
stand for the generated record keys (they embed `Date.now()`). -/
def startSession (posRaw jdRaw resumeRaw rck nowIso keySuffix localKey : String)
    (remote : Option JSValue) : StartResult :=
  let positionValue := jsTrim posRaw
  let jdValue := jsTrim jdRaw
  let resumeValue := jsTrim resumeRaw
  let jd := if jdValue ≠ "" then jdValue else positionValue
  if jd = "" then { record := none, networkAttempted := false }
  else
    let inferredPosition := if positionValue ≠ "" then positionValue else inferPositionFromJd jd
    let fallback : StartResult :=
      let localQuestions := buildLocalQuestions inferredPosition
      { record := some
          { key := localKey
          , sessionId := localKey
          , mode := .local
          , status := .active
          , position := inferredPosition
          , jdText := jd
          , resumeText := resumeValue
          , resumeContextKey := rck
          , createdAt := nowIso
          , updatedAt := nowIso
          , questionCount := (localQuestions.length : Int)
          , answeredCount := 0
          , currentIndex := 0
          , questions := localQuestions
          , answers := []
          , feedback := none
          , remoteNumericId := none }
      , networkAttempted := true }
    match remote with
    | none => fallback
    | some data =>
        let body := bodyOf data
        let sessionPayload :=
          if (body.getField "session").isRecord then body.getField "session" else body
        let remoteSessionId :=
          let d := extractSessionId body
          if d ≠ "" then d else extractSessionId sessionPayload
        if remoteSessionId = "" then fallback
        else
          let remoteQuestions := toQuestionList body
          let questionList :=
            if remoteQuestions.isEmpty then buildLocalQuestions inferredPosition
            else remoteQuestions
          { record := some
              { key := "remote-" ++ remoteSessionId ++ "-" ++ keySuffix
              , sessionId := remoteSessionId
              , mode := .remote
              , status := normalizeStatus (sessionPayload.getField "status")
              , position := inferredPosition
              , jdText := jd
              , resumeText := resumeValue
              , resumeContextKey := rck
              , createdAt := nowIso
              , updatedAt := nowIso
              , questionCount := (toSafeNumber (sessionPayload.getField "questionCount")).getD
                  (questionList.length : Int)
              , answeredCount := (toSafeNumber (sessionPayload.getField "answeredCount")).getD 0
              , currentIndex := jsMax 0
                  ((toSafeNumber (sessionPayload.getField "currentIndex")).getD 0)
              , questions := questionList
              , answers := []
              , feedback := none
              , remoteNumericId := parseIntJs remoteSessionId }
          , networkAttempted := true }

/-- How a `submitAnswer` invocation ended. -/
inductive SubmitOutcome where
  | noQuestion : SubmitOutcome
  | notActive : SubmitOutcome
  | emptyAnswer : SubmitOutcome
  | savedLocal : SubmitOutcome
  | savedRemote : SubmitOutcome
  | downgraded : SubmitOutcome
deriving DecidableEq, Repr

/-- Result of a session operation. -/
structure SubmitResult where
  record : InterviewSessionRecord
  networkAttempted : Bool
  outcome : SubmitOutcome
deriving DecidableEq, Repr

/-- Source `submitAnswer()`: reject unless the session is active and the trimmed
answer is non-empty; then write the optimistic local answer and, in remote
mode, propagate it (adopting the server's status/index on success,
downgrading to local mode on failure). -/
def submitAnswer (now fid : String) (prev : InterviewSessionRecord)
    (answerInput : String) (remote : Option JSValue) : SubmitResult :=
  match currentQuestionOf prev with
  | none => { record := prev, networkAttempted := false, outcome := .noQuestion }
  | some q =>
      if prev.status ≠ .active then
        { record := prev, networkAttempted := false, outcome := .notActive }
      else
        let trimmed := jsTrim answerInput
        if trimmed = "" then
          { record := prev, networkAttempted := false, outcome := .emptyAnswer }
        else
          let afterLocal := applySessionPatch now
            (fun p => { p with answers := setKey p.answers q.id trimmed }) prev
          if prev.mode ≠ .remote then
            { record := afterLocal, networkAttempted := false, outcome := .savedLocal }
          else
            match remote with
            | none =>
                { record := applySessionPatch now (fun p => { p with mode := .local }) afterLocal
                , networkAttempted := true, outcome := .downgraded }
            | some data =>
                let sessionPayload := sessionPayloadOf data
                let maybeNext := maybeNextOf fid data
                let remoteIndex := toSafeNumber (sessionPayload.getField "currentIndex")
                let remoteStatus := normalizeStatus (sessionPayload.getField "status")
                { record := applySessionPatch now (fun p =>
                    let questions := advanceQuestions p.questions maybeNext
                    let nextIndex := advanceNextIndex p.currentIndex remoteIndex maybeNext questions
                    { p with
                      status := remoteStatus
                      currentIndex := jsMin nextIndex (jsMax ((questions.length : Int) - 1) 0)
                      questions := questions }) afterLocal
                , networkAttempted := true, outcome := .savedRemote }

/-- Result of advance/pause/resume/finish. -/
structure OpResult where
  record : InterviewSessionRecord
  networkAttempted : Bool
deriving DecidableEq, Repr

/-- Source `nextQuestion()` (advance): no-op unless active; remote mode adopts the
server's reported index (clamped into the question list) and status and
appends a newly seen question, falling back — after downgrading the mode —
to the local increment-capped-at-last-question step on failure. -/
def nextQuestion (now fid : String) (prev : InterviewSessionRecord)
    (remote : Option JSValue) : OpResult :=
  if prev.status ≠ .active then { record := prev, networkAttempted := false }
  else
    let localStep : InterviewSessionRecord → InterviewSessionRecord := fun state =>
      applySessionPatch now (fun p =>
        if p.currentIndex ≥ (p.questions.length : Int) - 1 then p
        else { p with currentIndex := p.currentIndex + 1 }) state
    if prev.mode = .remote then
      match remote with
      | some data =>
          let sessionPayload := sessionPayloadOf data
          let maybeNext := maybeNextOf fid data
          let remoteIndex := toSafeNumber (sessionPayload.getField "currentIndex")
          { record := applySessionPatch now (fun p =>
              let questions := advanceQuestions p.questions maybeNext
              let nextIndex := advanceNextIndex p.currentIndex remoteIndex maybeNext questions
              { p with
                currentIndex := jsMin nextIndex (jsMax ((questions.length : Int) - 1) 0)
                status := normalizeStatus (jsOr (sessionPayload.getField "status")
                  (.str (statusWire p.status)))
                questions := questions }) prev
          , networkAttempted := true }
      | none =>
          { record := localStep (applySessionPatch now (fun p => { p with mode := .local }) prev)
          , networkAttempted := true }
    else
      { record := localStep prev, networkAttempted := false }

/-- Source `pauseSession()`: legal only while active; the remote notification is
best-effort (its outcome is ignored), then the status becomes `paused`. -/
def pauseSession (now : String) (prev : InterviewSessionRecord)
    (_remote : Option JSValue) : OpResult :=
  if prev.status ≠ .active then { record := prev, networkAttempted := false }
  else
    { record := applySessionPatch now (fun p => { p with status := .paused }) prev
    , networkAttempted := prev.mode = .remote }

/-- Source `resumeSession()`: legal only while paused; remote notification is
best-effort, then the status becomes `active`. -/
def resumeSession (now : String) (prev : InterviewSessionRecord)
    (_remote : Option JSValue) : OpResult :=
  if prev.status ≠ .paused then { record := prev, networkAttempted := false }
  else
    { record := applySessionPatch now (fun p => { p with status := .active }) prev
    , networkAttempted := prev.mode = .remote }

/-- Source `endSession()` (finish): in remote mode request the review; on success
adopt it (or the local fallback review when the payload holds none) and
finish; on failure downgrade to local mode; in local mode (also after a
downgrade) compute the deterministic fallback review and finish. -/
def endSession (now : String) (prev : InterviewSessionRecord)
    (remote : Option JSValue) : OpResult :=
  let finishLocal : InterviewSessionRecord → InterviewSessionRecord := fun state =>
    applySessionPatch now (fun p =>
      { p with
        status := .finished
        feedback := some (buildLocalFeedback p.answers (p.questions.length : Int) p.position) }) state
  if prev.mode = .remote then
    match remote with
    | some data =>
        let parsed := toInterviewFeedback data
        { record := applySessionPatch now (fun p =>
            { p with
              status := .finished
              feedback := some (parsed.getD
                (buildLocalFeedback p.answers (p.questions.length : Int) p.position)) }) prev
        , networkAttempted := true }
    | none =>
        { record := finishLocal (applySessionPatch now (fun p => { p with mode := .local }) prev)
        , networkAttempted := true }
  else
    { record := finishLocal prev, networkAttempted := false }

/-! ## The session store -/

/-- Source `loadSessionRecords()`: decode the stored list, dropping undecodable
entries, bounded to the 50 most recent. -/
def loadSessionRecords (raw : JSValue) : List InterviewSessionRecord :=
  match raw with
  | .arr l => (l.filterMap normalizeRecord).take 50
  | _ => []

/-- Source `upsertRecord(list, next)`: prepend a new record, or merge onto the
record matched by key, session id or remote numeric id (keeping the
existing key, question list when the new one is empty, the union of the
answers, and the existing feedback when the new one is null). -/
def upsertRecord (list : List InterviewSessionRecord) (next : InterviewSessionRecord) :
    List InterviewSessionRecord :=
  match list.findIdx? (fun item => item.key = next.key || item.sessionId = next.sessionId
      || (item.remoteNumericId.isSome && item.remoteNumericId = next.remoteNumericId)) with
  | none => (next :: list).take 50
  | some i =>
      let current := (list.get? i).getD next
      list.set i
        { next with
          key := current.key
          questions := if next.questions.isEmpty then current.questions else next.questions
          answers := next.answers.foldl (fun acc p => setKey acc p.1 p.2) current.answers
          feedback := match next.feedback with
            | some f => some f
            | none => current.feedback }

/-- The merge of one remote history record into the stored list performed
by `syncRemoteSessions`: match by remote numeric id or session id; on a
match the remote record overwrites the stored one (keeping only the stored
key, non-empty question list, resume-context key and feedback), else it is
appended. -/
def mergeRemoteOne (rck : String) (merged : List InterviewSessionRecord)
    (record : InterviewSessionRecord) : List InterviewSessionRecord :=
  match merged.findIdx? (fun item => item.remoteNumericId = record.remoteNumericId
      || item.sessionId = record.sessionId) with
  | none => merged ++ [record]
  | some i =>
      let item := (merged.get? i).getD record
      merged.set i
        { record with
          key := item.key
          resumeContextKey :=
            if item.resumeContextKey ≠ "" then item.resumeContextKey
            else if record.resumeContextKey ≠ "" then record.resumeContextKey else rck
          questions := if item.questions.isEmpty then record.questions else item.questions
          feedback := match item.feedback with
            | some f => some f
            | none => record.feedback }

/-- Source `syncRemoteSessions()` (history reconciliation): decode the remote
list response (`none` = fetch failed or non-ok), scope it to the current
resume context, and merge each item into the stored list, bounded to 50.
The fetch itself is issued unconditionally, before any of this. -/
def syncRemoteSessions (nowIso rck : String) (prev : List InterviewSessionRecord)
    (response : Option JSValue) : List InterviewSessionRecord :=
  match response with
  | none => prev
  | some data =>
      let payload := bodyOf data
      let remoteItems :=
        match payload.getField "items" with
        | .arr items => items.filterMap (normalizeRemoteSession nowIso)
        | _ => []
      let scopedItems := remoteItems.filter (fun r =>
        if r.resumeContextKey = "" then rck = "manual" else r.resumeContextKey = rck)
      if scopedItems.isEmpty then prev
      else (scopedItems.foldl (mergeRemoteOne rck) prev).take 50

/-! ## The client auth session module (`client-auth`)

Wall-clock time, ISO date formatting/parsing and the entropy used for
fresh guest credentials are passed in through `AuthEnv` / explicit
parameters. -/

/-- Mode of the local credential bundle (`local` = guest, `custom` =
authenticated). -/
inductive ClientAuthMode where
  | local : ClientAuthMode
  | custom : ClientAuthMode
deriving DecidableEq, Repr

/-- The typed reason surfaced on an authorization failure. -/
inductive AuthFailureReason where
  | expired : AuthFailureReason
  | unauthorized : AuthFailureReason
  | refresh_failed : AuthFailureReason
deriving DecidableEq, Repr

/-- The cached credential bundle (TypeScript type `ClientAuthState`). -/
structure ClientAuthState where
  sessionId : String
  accessToken : String
  refreshToken : Option String
  mode : ClientAuthMode
  updatedAt : String
  userName : Option String
  expiresAt : Option String
deriving DecidableEq, Repr

/-- Ambient facts of one operation: the current time, and the date
codec used by `new Date(x).getTime()` / `new Date(ms).toISOString()`
(parsing an invalid date gives `none`, modelling `NaN`). -/
structure AuthEnv where
  nowMs : Int
  nowIso : String
  parseMs : String → Option Int
  msToIso : Int → String

/-- Source `isAuthExpired(state)`: a credential is expired when its expiry string
is present, parses to a finite time, and that time is not in the
future. -/
def isAuthExpired (env : AuthEnv) (expiresAt : Option String) : Bool :=
  match expiresAt with
  | none => false
  | some s =>
      if s = "" then false
      else
        match env.parseMs s with
        | none => false
        | some t => env.nowMs ≥ t

/-- Source `isAuthExpired` on a full state. -/
def isAuthExpiredState (env : AuthEnv) (s : ClientAuthState) : Bool :=
  isAuthExpired env s.expiresAt

/-- Source `createGuestAuthState()`: a fresh anonymous credential; the generated
session id and access token are passed in. -/
def createGuestAuthState (gSid gTok nowIso : String) : ClientAuthState :=
  { sessionId := gSid
  , accessToken := gTok
  , refreshToken := none
  , mode := .local
  , updatedAt := nowIso
  , userName := none
  , expiresAt := none }

/-- The string under a field when it holds one, trimmed
(`typeof value.f === "string" ? value.f.trim() : ""`). -/
def trimmedStringField (v : JSValue) (key : String) : String :=
  match v.getField key with
  | .str s => jsTrim s
  | _ => ""

/-- The decoding part of `normalizeClientAuthState(value)` (everything
before the final expired-without-refresh check). -/
def decodeClientAuthState (env : AuthEnv) (v : JSValue) : Option ClientAuthState :=
  if !v.isRecord then none
  else
    let sessionId := trimmedStringField v "sessionId"
    let accessToken := trimmedStringField v "accessToken"
    let modeRaw := jsToLower (trimmedStringField v "mode")
    let mode : ClientAuthMode := if modeRaw = "custom" then .custom else .local
    if sessionId = "" || accessToken = "" then none
    else
      let userNameRaw := trimmedStringField v "userName"
      let expiresAtRaw := trimmedStringField v "expiresAt"
      let refreshTokenRaw := trimmedStringField v "refreshToken"
      some
        { sessionId := sessionId
        , accessToken := accessToken
        , refreshToken := if refreshTokenRaw ≠ "" then some refreshTokenRaw else none
        , mode := mode
        , updatedAt := match v.getField "updatedAt" with
            | .str s => if s ≠ "" then s else env.nowIso
            | _ => env.nowIso
        , userName := if userNameRaw ≠ "" then some userNameRaw else none
        , expiresAt := if expiresAtRaw ≠ "" then some expiresAtRaw else none }

/-- Source `normalizeClientAuthState(value)`: decode a stored credential bundle;
reject it when ids are missing, or when it is an authenticated record past
expiry with no refresh credential. -/
def normalizeClientAuthState (env : AuthEnv) (v : JSValue) : Option ClientAuthState :=
  match decodeClientAuthState env v with
  | none => none
  | some normalized =>
      if normalized.mode = .custom && isAuthExpired env normalized.expiresAt
          && normalized.refreshToken.isNone then none
      else some normalized

/-- Source `loadClientAuthState()`: decode the stored raw value (`none` = nothing
stored or `JSON.parse` threw). -/
def loadClientAuthState (env : AuthEnv) (stored : Option JSValue) : Option ClientAuthState :=
  stored.bind (normalizeClientAuthState env)

/-- Source `getOrCreateClientAuthState()`: the stored credential, else a freshly
saved guest one. -/
def getOrCreateClientAuthState (env : AuthEnv) (gSid gTok : String)
    (stored : Option JSValue) : ClientAuthState :=
  (loadClientAuthState env stored).getD (createGuestAuthState gSid gTok env.nowIso)

/-- Source `persistState(next)`: before saving, degrade an authenticated record
past expiry with no refresh credential to a fresh guest record. -/
def persistState (env : AuthEnv) (gSid gTok : String) (next : ClientAuthState) : ClientAuthState :=
  if next.mode = .custom && isAuthExpiredState env next && next.refreshToken.isNone
  then createGuestAuthState gSid gTok env.nowIso
  else next

/-- Source `ensureAuthState()` when the in-memory ref already holds a state:
degrade it to a fresh guest record when it is an expired authenticated
record with no refresh credential. -/
def ensureAuthStateOf (env : AuthEnv) (gSid gTok : String) (current : ClientAuthState) :
    ClientAuthState :=
  if current.mode = .custom && isAuthExpiredState env current && current.refreshToken.isNone
  then persistState env gSid gTok (createGuestAuthState gSid gTok env.nowIso)
  else current

/-- A transport response: HTTP status, the optional `x-session-id`
response header, and the decoded JSON body (`null` when the body is not
JSON). -/
structure FetchResponse where
  status : Nat
  sessionIdHeader : Option String := none
  body : JSValue := .null

/-- Source `response.ok`. -/
def FetchResponse.ok (r : FetchResponse) : Bool := 200 ≤ r.status && r.status < 300

/-- Source `syncAuthStateFromResponse(current, response)`: adopt a server-assigned
session id from the response header. -/
def syncAuthStateFromResponse (env : AuthEnv) (current : ClientAuthState)
    (header : Option String) : ClientAuthState :=
  match header with
  | none => current
  | some h =>
      let t := jsTrim h
      if t = "" || t = current.sessionId then current
      else { current with sessionId := t, updatedAt := env.nowIso }

mutual

/-- Structural size of a value, used as recursion fuel for the payload
extractors (it dominates the nesting depth). -/
def jsSize : JSValue → Nat
  | .null => 1
  | .bool _ => 1
  | .num _ => 1
  | .str _ => 1
  | .arr items => 1 + jsSizeList items
  | .obj fields => 1 + jsSizeFields fields

/-- Size of an array's items. -/
def jsSizeList : List JSValue → Nat
  | [] => 0
  | v :: rest => 1 + jsSize v + jsSizeList rest

/-- Size of an object's fields. -/
def jsSizeFields : List (String × JSValue) → Nat
  | [] => 0
  | p :: rest => 1 + jsSize p.2 + jsSizeFields rest

end

/-- Source `payload[key]` candidates: the first direct key holding a non-blank
string, trimmed. -/
def firstDirectString (fields : List (String × JSValue)) : List String → Option String
  | [] => none
  | k :: ks =>
      match fieldsLookup fields k with
      | .str s => if jsTrim s ≠ "" then some (jsTrim s) else firstDirectString fields ks
      | _ => firstDirectString fields ks

mutual

/-- Generic payload extractor shared by
`extractTokenFromPayload`/`extractRefreshTokenFromPayload`/
`extractUserNameFromPayload`: a trimmed non-blank string under one of the
`direct` keys, else the first hit recursing into the `nested` keys.  The
fuel argument bounds the recursion depth; called with the size of the
value it never runs out. -/
def extractStringPayload (direct nested : List String) : Nat → JSValue → Option String
  | 0, _ => none
  | fuel + 1, .obj fields =>
      match firstDirectString fields direct with
      | some s => some s
      | none => extractNestedString direct nested fuel fields nested
  | _ + 1, _ => none

/-- Scan the `nested` keys in order, recursing into each. -/
def extractNestedString (direct nestedAll : List String) :
    Nat → List (String × JSValue) → List String → Option String
  | _, _, [] => none
  | fuel, fields, k :: ks =>
      match extractStringPayload direct nestedAll fuel (fieldsLookup fields k) with
      | some s => some s
      | none => extractNestedString direct nestedAll fuel fields ks

end

/-- Source `extractTokenFromPayload(payload)`. -/
def extractTokenFromPayload (v : JSValue) : Option String :=
  extractStringPayload ["accessToken", "access_token", "token", "jwt", "sessionToken"]
    ["data", "item", "session", "auth"] (jsSize v) v

/-- Source `extractRefreshTokenFromPayload(payload)`. -/
def extractRefreshTokenFromPayload (v : JSValue) : Option String :=
  extractStringPayload ["refreshToken", "refresh_token", "refresh"]
    ["data", "item", "session", "auth"] (jsSize v) v

/-- Source `extractUserNameFromPayload(payload)`. -/
def extractUserNameFromPayload (v : JSValue) : Option String :=
  extractStringPayload ["userName", "username", "name"] ["user"] (jsSize v) v

/-- Source `extractExpiresAtFromPayload(payload)`: a direct expiry string, else an
expiry computed from a positive `expiresIn`-style duration. -/
def extractExpiresAtFromPayload (env : AuthEnv) (v : JSValue) : Option String :=
  match v with
  | .obj fields =>
      match firstDirectString fields ["expiresAt", "expires_at", "expiry", "expiredAt"] with
      | some s => some s
      | none =>
          match nullish (nullish (fieldsLookup fields "expiresIn")
              (fieldsLookup fields "expires_in")) (fieldsLookup fields "ttlSeconds") with
          | .num n => if n > 0 then some (env.msToIso (env.nowMs + n * 1000)) else none
          | _ => none
  | _ => none

/-- One attempt of the refresh loop: the transport threw, or it returned a
response. -/
inductive RefreshAttempt where
  | netError : RefreshAttempt
  | resp (r : FetchResponse) : RefreshAttempt

/-- One endpoint row of the refresh loop: try each payload shape in order;
a 404/405 response breaks to the next endpoint, a non-ok response or a
response without an extractable access token moves to the next payload
shape; the first usable response yields the refreshed state. -/
def refreshTryRow (env : AuthEnv) (current : ClientAuthState) :
    List RefreshAttempt → Option ClientAuthState
  | [] => none
  | .netError :: rest => refreshTryRow env current rest
  | .resp r :: rest =>
      if r.status = 404 || r.status = 405 then none
      else if !r.ok then refreshTryRow env current rest
      else
        match extractTokenFromPayload r.body with
        | none => refreshTryRow env current rest
        | some nextAccessToken =>
            some
              { current with
                sessionId := match r.sessionIdHeader with
                  | some h => if jsTrim h ≠ "" then jsTrim h else current.sessionId
                  | none => current.sessionId
                accessToken := nextAccessToken
                refreshToken := (extractRefreshTokenFromPayload r.body).orElse
                  (fun _ => current.refreshToken)
                expiresAt := (extractExpiresAtFromPayload env r.body).orElse
                  (fun _ => current.expiresAt)
                userName := (extractUserNameFromPayload r.body).orElse
                  (fun _ => current.userName)
                updatedAt := env.nowIso
                mode := .custom }

/-- The endpoint rows of the refresh loop, in order. -/
def refreshRows (env : AuthEnv) (current : ClientAuthState) :
    List (List RefreshAttempt) → Option ClientAuthState
  | [] => none
  | row :: rest =>
      match refreshTryRow env current row with
      | some s => some s
      | none => refreshRows env current rest

/-- Source `tryAutoRefreshAuth(apiBaseUrl, current)`: nothing to do without a
refresh credential; otherwise run the endpoint × payload-shape loop.  The
`attempts` grid holds the transport outcome of each attempted request. -/
def tryAutoRefreshAuth (env : AuthEnv) (current : ClientAuthState)
    (attempts : List (List RefreshAttempt)) : Option ClientAuthState :=
  match current.refreshToken with
  | none => none
  | some _ => refreshRows env current attempts

/-- The observable outcome of one `apiFetch` call: the status of the
response handed back to the caller, the final credential state, the
surfaced failure reason (`none` when the call did not surface one), how
often the original request was replayed after a refresh, and the
interview-session store (which `apiFetch` never touches). -/
structure ApiFetchResult where
  responseStatus : Nat
  auth : ClientAuthState
  reason : Option AuthFailureReason
  replays : Nat
  sessions : List InterviewSessionRecord

/-- Source `apiFetch(input, init)`: attach the current credential and fetch; on a
401 under an authenticated credential run at most one
refresh-and-replay cycle; when that is impossible or fails, surface a
typed reason and downgrade the stored credential to a fresh guest one. -/
def apiFetch (env : AuthEnv) (gSid gTok : String) (auth0 : ClientAuthState)
    (sessions : List InterviewSessionRecord) (first : FetchResponse)
    (refreshAttempts : List (List RefreshAttempt)) (retry : FetchResponse) : ApiFetchResult :=
  let current := ensureAuthStateOf env gSid gTok auth0
  let a1 := syncAuthStateFromResponse env current first.sessionIdHeader
  let changed := a1.sessionId ≠ current.sessionId || a1.accessToken ≠ current.accessToken
    || a1.mode ≠ current.mode || a1.updatedAt ≠ current.updatedAt
    || a1.refreshToken ≠ current.refreshToken
  let stored1 := if changed then persistState env gSid gTok a1 else a1
  if first.status ≠ 401 || current.mode ≠ .custom then
    { responseStatus := first.status, auth := stored1, reason := none, replays := 0
    , sessions := sessions }
  else
    let hadRefreshToken := current.refreshToken.isSome
    let refreshCandidate :=
      if hadRefreshToken then tryAutoRefreshAuth env current refreshAttempts else none
    let downgradeReason : AuthFailureReason :=
      if hadRefreshToken then .refresh_failed
      else if isAuthExpiredState env current then .expired
      else .unauthorized
    let guest := persistState env gSid gTok (createGuestAuthState gSid gTok env.nowIso)
    match refreshCandidate with
    | some cand =>
        let refreshedState := persistState env gSid gTok cand
        let a2 := syncAuthStateFromResponse env refreshedState retry.sessionIdHeader
        if retry.ok || retry.status ≠ 401 then
          { responseStatus := retry.status, auth := persistState env gSid gTok a2
          , reason := none, replays := 1, sessions := sessions }
        else
          { responseStatus := retry.status, auth := guest
          , reason := some downgradeReason, replays := 1, sessions := sessions }
    | none =>
        { responseStatus := first.status, auth := guest
        , reason := some downgradeReason, replays := 0, sessions := sessions }

/-! ## Derived predicates used by the theorems -/

/-- The number of non-empty (after trimming) answers of an answers
object — what the specification calls `answeredCount`. -/
def countNonEmptyAnswers (answers : List (String × String)) : Nat :=
  (nonEmptyAnswerValues answers).length

/-- The index invariant claimed by the specification:
`currentIndex < max(1, len(questions))`. -/
def indexBoundB (r : InterviewSessionRecord) : Bool :=
  r.currentIndex < jsMax 1 (r.questions.length : Int)

/-- Does `answeredCount` equal the number of non-empty answers? -/
def answeredMatchesB (r : InterviewSessionRecord) : Bool :=
  r.answeredCount = (countNonEmptyAnswers r.answers : Int)

/-- Projection used to exhibit the `answeredCount` mismatch. -/
def answeredPair (r : InterviewSessionRecord) : Int × Nat :=
  (r.answeredCount, countNonEmptyAnswers r.answers)

/-- The auth-state invariant claimed by the specification: never an
authenticated record past expiry lacking a refresh credential. -/
def authInvariant (env : AuthEnv) (s : ClientAuthState) : Prop :=
  ¬(s.mode = .custom ∧ isAuthExpiredState env s = true ∧ s.refreshToken = none)

/-! ## Claim theorems -/

/-- **C10.** For every answers map, total question count, and position
string, the local fallback feedback generator returns a score in the
closed interval [45, 95] and a non-empty improvements list — at least one
improvement suggestion is produced even when zero questions were
answered. -/
theorem C10_fallback_review_bounds (answers : List (String × String)) (tq : Int)
    (pos : String) :
    (∃ n : Int, (buildLocalFeedback answers tq pos).score = some n ∧ 45 ≤ n ∧ n ≤ 95)
    ∧ (buildLocalFeedback answers tq pos).improvements ≠ [] := by
  have hsc : (buildLocalFeedback answers tq pos).score
      = some (jsMin 95 (45 + ((nonEmptyAnswerValues answers).length : Int) * 12
          + (if avgAnswerLength answers ≥ 80 then 12 else 0)
          + (if avgAnswerLength answers ≥ 140 then 6 else 0))) := rfl
  have him : (buildLocalFeedback answers tq pos).improvements
      = (if avgAnswerLength answers < 80 then ["答案偏短，建议补充具体背景与结果数据"] else [])
        ++ ["每个回答都可补充“你做了什么、带来什么变化”来增强说服力"] := rfl
  constructor
  · refine ⟨_, hsc, ?_, ?_⟩ <;>
      · unfold jsMin
        have : (0 : Int) ≤ ((nonEmptyAnswerValues answers).length : Int) :=
          Int.natCast_nonneg _
        split_ifs <;> omega
  · rw [him]
    simp [List.append_eq_nil]

/-- **C1.** For every session executing in local-fallback mode (its mode is
already `local`, or every remote call of `finish()` fails), `finish()`
produces exactly the review `buildLocalFeedback(answers, len(questions),
position)` of the session, whose score is the deterministic function
`score = min(95, 45 + 12*answeredCount + (12 if avg ≥ 80) + (6 if avg ≥ 140))`
of the answered count and average answer length; in particular, starting
with non-empty job text while every remote call fails creates exactly 3
fallback questions, and finishing with all 3 answered at average length
≥ 80 and < 140 characters yields a review with score 93.  (The average is
the one the code computes: the rounded mean trimmed length of the
non-empty answers.) -/
theorem C1_local_fallback_review
    (posRaw jdRaw resRaw rck nowIso localKey now : String)
    (prev : InterviewSessionRecord) (remote : Option JSValue)
    (hjd : jsTrim jdRaw ≠ "")
    (hfb : prev.mode = .local ∨ remote = none)
    (h3 : countNonEmptyAnswers prev.answers = 3)
    (h80 : 80 ≤ avgAnswerLength prev.answers)
    (h140 : avgAnswerLength prev.answers < 140) :
    ((startSession posRaw jdRaw resRaw rck nowIso "" localKey none).record.map
        (fun r => (r.questions.length, r.mode, r.status, r.currentIndex)))
      = some (3, InterviewMode.local, InterviewStatus.active, 0)
    ∧ (endSession now prev remote).record.feedback
        = some (buildLocalFeedback prev.answers (prev.questions.length : Int) prev.position)
    ∧ (buildLocalFeedback prev.answers (prev.questions.length : Int) prev.position).score
        = some (jsMin 95 (45 + (countNonEmptyAnswers prev.answers : Int) * 12
            + (if avgAnswerLength prev.answers ≥ 80 then 12 else 0)
            + (if avgAnswerLength prev.answers ≥ 140 then 6 else 0)))
    ∧ ((endSession now prev remote).record.feedback.map InterviewFeedback.score)
        = some (some 93)
    ∧ (endSession now prev remote).record.status = .finished := by
  have hfeed : (endSession now prev remote).record.feedback
      = some (buildLocalFeedback prev.answers (prev.questions.length : Int) prev.position) := by
    rcases hfb with hm | hr
    · have hm' : ¬ prev.mode = .remote := by rw [hm]; decide
      simp [endSession, hm', applySessionPatch]
    · subst hr
      by_cases hm : prev.mode = .remote
      · simp [endSession, hm, applySessionPatch]
      · simp [endSession, hm, applySessionPatch]
  have h93 : (buildLocalFeedback prev.answers (prev.questions.length : Int) prev.position).score
      = some 93 := by
    have hs : (buildLocalFeedback prev.answers (prev.questions.length : Int) prev.position).score
        = some (jsMin 95 (45 + (countNonEmptyAnswers prev.answers : Int) * 12
            + (if avgAnswerLength prev.answers ≥ 80 then 12 else 0)
            + (if avgAnswerLength prev.answers ≥ 140 then 6 else 0))) := rfl
    rw [hs, if_pos h80, if_neg (by omega : ¬ avgAnswerLength prev.answers ≥ 140), h3]
    decide
  refine ⟨?_, hfeed, rfl, ?_, ?_⟩
  · simp [startSession, hjd, buildLocalQuestions]
  · rw [hfeed]
    simp [h93]
  · unfold endSession
    cases prev.mode <;> cases remote <;> simp [applySessionPatch]

/-- Witness answers for C1: three answers of exactly 80 characters. -/
def ansC1 : List (String × String) :=
  [("q-1", String.mk (List.replicate 80 'a')),
   ("q-2", String.mk (List.replicate 80 'b')),
   ("q-3", String.mk (List.replicate 80 'c'))]

/-- Witness session for C1: a local-fallback session with all three
fallback questions answered at 80 characters each. -/
def recC1 : InterviewSessionRecord :=
  { key := "local-1"
  , sessionId := "local-1"
  , mode := .local
  , status := .active
  , position := "Backend Engineer"
  , jdText := "Backend Engineer, must know caching"
  , resumeText := ""
  , resumeContextKey := "manual"
  , createdAt := "t0"
  , updatedAt := "t0"
  , questionCount := 3
  , answeredCount := 3
  , currentIndex := 2
  , questions := buildLocalQuestions "Backend Engineer"
  , answers := ansC1
  , feedback := none
  , remoteNumericId := none }

/-- Witness for C1 at a concrete input. -/
theorem C1_local_fallback_review_witness :
    jsTrim "Backend Engineer, must know caching" ≠ ""
    ∧ (recC1.mode = .local ∨ (none : Option JSValue) = none)
    ∧ countNonEmptyAnswers recC1.answers = 3
    ∧ 80 ≤ avgAnswerLength recC1.answers
    ∧ avgAnswerLength recC1.answers < 140
    ∧ ((startSession "" "Backend Engineer, must know caching" "" "manual" "t0" "" "local-1"
          none).record.map
        (fun r => (r.questions.length, r.mode, r.status, r.currentIndex)))
      = some (3, InterviewMode.local, InterviewStatus.active, 0)
    ∧ ((endSession "t1" recC1 none).record.feedback.map InterviewFeedback.score)
        = some (some 93)
    ∧ (endSession "t1" recC1 none).record.status = .finished := by
  have hw := C1_local_fallback_review "" "Backend Engineer, must know caching" "" "manual"
    "t0" "local-1" "t1" recC1 none (by decide) (Or.inl (by decide)) (by decide) (by decide)
    (by decide)
  exact ⟨by decide, Or.inl (by decide), by decide, by decide, by decide,
    hw.1, hw.2.2.2.1, hw.2.2.2.2⟩

/-- **C3.** For every session in IN_PROGRESS or PAUSED status, `finish()`
terminates with the session in COMPLETED status and a non-null review,
both when the remote authority responds successfully (with any payload)
and when every remote call fails. -/
theorem C3_finish_total (now : String) (prev : InterviewSessionRecord)
    (remote : Option JSValue)
    (_h : prev.status = .active ∨ prev.status = .paused) :
    (endSession now prev remote).record.status = .finished
    ∧ ((endSession now prev remote).record.feedback).isSome = true := by
  unfold endSession
  cases hm : prev.mode <;> cases remote <;>
    simp [applySessionPatch]

/-- Witness record for C3: an in-progress local session with one answer. -/
def recC3 : InterviewSessionRecord :=
  { key := "local-1"
  , sessionId := "local-1"
  , mode := .local
  , status := .active
  , position := "后端工程师"
  , jdText := "后端工程师"
  , resumeText := ""
  , resumeContextKey := "manual"
  , createdAt := "t0"
  , updatedAt := "t0"
  , questionCount := 3
  , answeredCount := 1
  , currentIndex := 0
  , questions := buildLocalQuestions "后端工程师"
  , answers := [("q-1", "我的回答")]
  , feedback := none
  , remoteNumericId := none }

/-- Witness for C3 at a concrete input. -/
theorem C3_finish_total_witness :
    (recC3.status = .active ∨ recC3.status = .paused)
    ∧ (endSession "t1" recC3 none).record.status = .finished
    ∧ ((endSession "t1" recC3 none).record.feedback).isSome = true := by
  refine ⟨by decide, ?_, ?_⟩
  · exact (C3_finish_total "t1" recC3 none (by decide)).1
  · exact (C3_finish_total "t1" recC3 none (by decide)).2

/-- A completed session with no current question: a reconciled history
record whose question list is empty. -/
def recC6n : InterviewSessionRecord :=
  { key := "remote-history-5"
  , sessionId := "tok-5"
  , mode := .remote
  , status := .finished
  , position := ""
  , jdText := ""
  , resumeText := ""
  , resumeContextKey := ""
  , createdAt := "t0"
  , updatedAt := "t0"
  , questionCount := 3
  , answeredCount := 3
  , currentIndex := 0
  , questions := []
  , answers := []
  , feedback := none
  , remoteNumericId := some 5 }

/-- **C6, counterexample.** `submitAnswer` on a COMPLETED session that has
no current question (here: a reconciled history record with an empty
question list) returns *silently* — no typed validation error is produced
(the outcome is neither the status rejection nor the empty-text
rejection), so the claim that such a call always returns a typed
validation error fails; the no-op part holds (record unchanged, no
network). -/
theorem C6_counterexample :
    recC6n.status = .finished
    ∧ currentQuestionOf recC6n = none
    ∧ (submitAnswer "t1" "q-x" recC6n "我的回答" none).outcome = .noQuestion
    ∧ (submitAnswer "t1" "q-x" recC6n "我的回答" none).outcome ≠ .notActive
    ∧ (submitAnswer "t1" "q-x" recC6n "我的回答" none).outcome ≠ .emptyAnswer
    ∧ (submitAnswer "t1" "q-x" recC6n "我的回答" none).record = recC6n
    ∧ (submitAnswer "t1" "q-x" recC6n "我的回答" none).networkAttempted = false := by
  decide

/-- **C6, amended.** `submitAnswer` invoked on a session whose status is
PAUSED or COMPLETED, or invoked with empty (whitespace-only) answer text,
never reaches the network and leaves the session record byte-for-byte
unchanged; it returns a typed validation error whenever the session has a
current question (rejecting on status first, then on empty text), but when
the session has no current question it silently no-ops with no error at
all. -/
theorem C6_submit_rejected_noop (now fid input : String)
    (prev : InterviewSessionRecord) (remote : Option JSValue) :
    (∀ q, currentQuestionOf prev = some q →
      prev.status = .paused ∨ prev.status = .finished ∨ jsTrim input = "" →
      (submitAnswer now fid prev input remote).record = prev
      ∧ (submitAnswer now fid prev input remote).networkAttempted = false
      ∧ ((submitAnswer now fid prev input remote).outcome = .notActive
         ∨ (submitAnswer now fid prev input remote).outcome = .emptyAnswer))
    ∧ (currentQuestionOf prev = none →
      (submitAnswer now fid prev input remote).record = prev
      ∧ (submitAnswer now fid prev input remote).networkAttempted = false
      ∧ (submitAnswer now fid prev input remote).outcome = .noQuestion) := by
  constructor
  · intro q hq h
    by_cases hs : prev.status = .active
    · have ht : jsTrim input = "" := by
        rcases h with h | h | h
        · rw [hs] at h; exact absurd h (by decide)
        · rw [hs] at h; exact absurd h (by decide)
        · exact h
      simp [submitAnswer, hq, hs, ht]
    · simp [submitAnswer, hq, hs]
  · intro hq
    simp [submitAnswer, hq]

/-- A non-empty string has positive length. -/
theorem jsLen_pos_of_ne_empty (s : String) (h : s ≠ "") : 0 < jsLen s := by
  cases s with
  | mk data =>
      cases data with
      | nil => exact absurd rfl h
      | cons c l => simp [jsLen]

/-- When every answer value is non-empty after trimming, the number of
non-empty answers is the number of keys. -/
theorem countNonEmpty_eq_length (l : List (String × String))
    (h : ∀ p ∈ l, jsTrim p.2 ≠ "") : countNonEmptyAnswers l = l.length := by
  induction l with
  | nil => rfl
  | cons a t ih =>
      have ha : 0 < jsLen (jsTrim a.2) :=
        jsLen_pos_of_ne_empty _ (h a (List.mem_cons_self _ _))
      have ht : countNonEmptyAnswers t = t.length :=
        ih (fun p hp => h p (List.mem_cons_of_mem _ hp))
      unfold countNonEmptyAnswers nonEmptyAnswerValues at ht ⊢
      simpa [ha] using ht

/-- Wire value for the C2 counterexample: a stored record carrying an
empty-string answer and no `answeredCount` field. -/
def wireC2 : JSValue :=
  .obj [("key", .str "k1"), ("sessionId", .str "s1"),
        ("answers", .obj [("q-1", .str "")])]

/-- **C2, counterexample.** Reconciling this stored record yields
`answeredCount = 1` while the number of non-empty answers is 0: the claim
that `answeredCount` always equals the count of non-empty answers fails
on `normalizeRecord` (which counts keys / adopts the stored count
verbatim, not non-empty values). -/
theorem C2_counterexample :
    (normalizeRecord wireC2).map answeredPair = some (1, 0)
    ∧ (normalizeRecord wireC2).map answeredMatchesB = some false := by
  decide

/-- The head of a whitespace-trimmed list is never whitespace. -/
theorem dropWsChars_head? (l : List Char) :
    ∀ c, (dropWsChars l).head? = some c → isWsChar c = false := by
  induction l with
  | nil => intro c h; cases h
  | cons a t ih =>
      intro c h
      by_cases ha : isWsChar a
      · simp only [dropWsChars, if_pos ha] at h
        exact ih c h
      · simp only [dropWsChars, if_neg ha, List.head?_cons] at h
        obtain rfl : a = c := Option.some.inj h
        simpa using ha

/-- Dropping leading whitespace is the identity when the head is not
whitespace. -/
theorem dropWsChars_of_head? (l : List Char)
    (h : ∀ c, l.head? = some c → isWsChar c = false) : dropWsChars l = l := by
  cases l with
  | nil => rfl
  | cons a t =>
      have := h a (by simp)
      simp [dropWsChars, this]

/-- Dropping leading whitespace keeps the last element (when anything is
left). -/
theorem dropWsChars_getLast? (l : List Char) (h : dropWsChars l ≠ []) :
    (dropWsChars l).getLast? = l.getLast? := by
  induction l with
  | nil => rfl
  | cons a t ih =>
      by_cases ha : isWsChar a
      · simp only [dropWsChars, if_pos ha] at h ⊢
        rw [ih h]
        have ht : t ≠ [] := by
          intro he
          rw [he] at h
          exact h rfl
        cases t with
        | nil => exact absurd rfl ht
        | cons b t' => rw [List.getLast?_cons_cons]
      · simp [dropWsChars, ha]

/-- JavaScript trimming is idempotent. -/
theorem jsTrim_idem (s : String) : jsTrim (jsTrim s) = jsTrim s := by
  unfold jsTrim
  congr 1
  show (dropWsChars (dropWsChars
      ((dropWsChars (dropWsChars s.data).reverse).reverse)).reverse).reverse
    = (dropWsChars (dropWsChars s.data).reverse).reverse
  set A := dropWsChars s.data with hA
  set B := dropWsChars A.reverse with hB
  have hBdrop : dropWsChars B.reverse = B.reverse := by
    apply dropWsChars_of_head?
    intro c hc
    rw [List.head?_reverse] at hc
    by_cases hBe : B = []
    · rw [hBe] at hc; cases hc
    · rw [hB, dropWsChars_getLast? A.reverse (hB ▸ hBe)] at hc
      rw [List.getLast?_reverse] at hc
      exact dropWsChars_head? s.data c (hA ▸ hc)
  rw [hBdrop, List.reverse_reverse]
  have hB2 : dropWsChars B = B := by
    apply dropWsChars_of_head?
    intro c hc
    exact dropWsChars_head? A.reverse c (hB ▸ hc)
  rw [hB2]

/-- Updating an answers object whose values are all non-empty with a value
that trims to non-empty keeps every value non-empty. -/
theorem setKey_nonEmpty (m : List (String × String)) (k v : String)
    (hm : ∀ p ∈ m, jsTrim p.2 ≠ "") (hv : jsTrim v ≠ "") :
    ∀ p ∈ setKey m k v, jsTrim p.2 ≠ "" := by
  intro p hp
  unfold setKey at hp
  split at hp
  · obtain ⟨q, hq, hpq⟩ := List.mem_map.mp hp
    by_cases hk : q.1 = k
    · rw [if_pos hk] at hpq
      rw [← hpq]
      exact hv
    · rw [if_neg hk] at hpq
      rw [← hpq]
      exact hm q hq
  · rcases List.mem_append.mp hp with h | h
    · exact hm p h
    · obtain rfl : p = (k, v) := by simpa using h
      exact hv

/-- Does `answeredCount` equal the number of keys of the answers map? -/
def answeredKeysB (r : InterviewSessionRecord) : Bool :=
  r.answeredCount = (r.answers.length : Int)

/-- Source `applySessionPatch` always restores `answeredCount` to the
number of keys. -/
theorem applySessionPatch_keys (now : String)
    (updater : InterviewSessionRecord → InterviewSessionRecord)
    (prev : InterviewSessionRecord) :
    answeredKeysB (applySessionPatch now updater prev) = true := by
  simp [answeredKeysB, applySessionPatch]

/-- **C2, amended.** Every mutating outcome of the in-session operations
(`submitAnswer`, `advance`, `pause`, `resume`, `finish` — each mutation
goes through `applySessionPatch`) leaves `answeredCount` equal to the
number of keys of the answers map (rejected calls return the record
unchanged); `submitAnswer` only ever stores non-empty trimmed text, so in
the operation flow every stored answer is non-empty and the key count
equals the count of non-empty answers.  Records created by `start`'s
remote path or loaded/reconciled by `normalizeRecord`/
`normalizeRemoteSession` adopt a server/stored `answeredCount` verbatim
and need not satisfy the equality. -/
theorem C2_answered_count_ops (now fid input : String)
    (prev : InterviewSessionRecord) (remote : Option JSValue) :
    ((submitAnswer now fid prev input remote).record = prev
      ∨ answeredKeysB (submitAnswer now fid prev input remote).record = true)
    ∧ ((nextQuestion now fid prev remote).record = prev
      ∨ answeredKeysB (nextQuestion now fid prev remote).record = true)
    ∧ ((pauseSession now prev remote).record = prev
      ∨ answeredKeysB (pauseSession now prev remote).record = true)
    ∧ ((resumeSession now prev remote).record = prev
      ∨ answeredKeysB (resumeSession now prev remote).record = true)
    ∧ answeredKeysB (endSession now prev remote).record = true
    ∧ ((∀ p ∈ prev.answers, jsTrim p.2 ≠ "") →
        ∀ p ∈ (submitAnswer now fid prev input remote).record.answers, jsTrim p.2 ≠ "")
    ∧ (∀ l : List (String × String), (∀ p ∈ l, jsTrim p.2 ≠ "") →
        (countNonEmptyAnswers l : Int) = (l.length : Int)) := by
  refine ⟨?_, ?_, ?_, ?_, ?_, ?_, ?_⟩
  · cases hq : currentQuestionOf prev with
    | none => exact Or.inl (by simp [submitAnswer, hq])
    | some q =>
        by_cases hs : prev.status = .active
        · by_cases ht : jsTrim input = ""
          · exact Or.inl (by simp [submitAnswer, hq, hs, ht])
          · by_cases hm : prev.mode = .remote
            · cases remote with
              | none =>
                  exact Or.inr (by simp [submitAnswer, hq, hs, ht, hm, applySessionPatch_keys])
              | some data =>
                  exact Or.inr (by simp [submitAnswer, hq, hs, ht, hm, applySessionPatch_keys])
            · exact Or.inr (by simp [submitAnswer, hq, hs, ht, hm, applySessionPatch_keys])
        · exact Or.inl (by simp [submitAnswer, hq, hs])
  · by_cases hs : prev.status = .active
    · refine Or.inr ?_
      by_cases hm : prev.mode = .remote
      · cases remote with
        | none => simp [nextQuestion, hs, hm, applySessionPatch_keys]
        | some data => simp [nextQuestion, hs, hm, applySessionPatch_keys]
      · simp [nextQuestion, hs, hm, applySessionPatch_keys]
    · exact Or.inl (by simp [nextQuestion, hs])
  · by_cases hs : prev.status = .active
    · exact Or.inr (by simp [pauseSession, hs, applySessionPatch_keys])
    · exact Or.inl (by simp [pauseSession, hs])
  · by_cases hs : prev.status = .paused
    · exact Or.inr (by simp [resumeSession, hs, applySessionPatch_keys])
    · exact Or.inl (by simp [resumeSession, hs])
  · by_cases hm : prev.mode = .remote
    · cases remote with
      | none => simp [endSession, hm, applySessionPatch_keys]
      | some data => simp [endSession, hm, applySessionPatch_keys]
    · simp [endSession, hm, applySessionPatch_keys]
  · intro hall
    cases hq : currentQuestionOf prev with
    | none => simpa [submitAnswer, hq] using hall
    | some q =>
        by_cases hs : prev.status = .active
        · by_cases ht : jsTrim input = ""
          · simpa [submitAnswer, hq, hs, ht] using hall
          · have hset : ∀ p ∈ setKey prev.answers q.id (jsTrim input), jsTrim p.2 ≠ "" :=
              setKey_nonEmpty prev.answers q.id (jsTrim input) hall
                (by rw [jsTrim_idem]; exact ht)
            by_cases hm : prev.mode = .remote
            · cases remote with
              | none => simpa [submitAnswer, hq, hs, ht, hm, applySessionPatch] using hset
              | some data =>
                  simpa [submitAnswer, hq, hs, ht, hm, applySessionPatch] using hset
            · simpa [submitAnswer, hq, hs, ht, hm, applySessionPatch] using hset
        · simpa [submitAnswer, hq, hs] using hall
  · intro l hl
    rw [countNonEmpty_eq_length l hl]

/-- A fresh guest record satisfies the auth invariant. -/
theorem authInvariant_guest (env : AuthEnv) (gSid gTok nowIso : String) :
    authInvariant env (createGuestAuthState gSid gTok nowIso) := by
  rintro ⟨h1, -, -⟩
  simp [createGuestAuthState] at h1

/-- Source `persistState` always outputs a state satisfying the auth
invariant. -/
theorem authInvariant_persist (env : AuthEnv) (gSid gTok : String)
    (next : ClientAuthState) :
    authInvariant env (persistState env gSid gTok next) := by
  unfold persistState
  split
  · exact authInvariant_guest env gSid gTok env.nowIso
  · next hc =>
      rintro ⟨h1, h2, h3⟩
      exact hc (by simp [h1, h2, h3])

/-- Source `normalizeClientAuthState` only outputs states satisfying the
auth invariant. -/
theorem authInvariant_normalize (env : AuthEnv) (v : JSValue) (s : ClientAuthState)
    (h : normalizeClientAuthState env v = some s) : authInvariant env s := by
  unfold normalizeClientAuthState at h
  cases hd : decodeClientAuthState env v with
  | none => rw [hd] at h; exact absurd h (by simp)
  | some normalized =>
      rw [hd] at h
      dsimp only at h
      by_cases hc : (normalized.mode = .custom && isAuthExpired env normalized.expiresAt
          && normalized.refreshToken.isNone) = true
      · rw [if_pos hc] at h; exact absurd h (by simp)
      · rw [if_neg hc] at h
        obtain rfl := Option.some.inj h
        rintro ⟨h1, h2, h3⟩
        rw [isAuthExpiredState] at h2
        exact hc (by simp [h1, h2, h3])

/-- **C9.** For every stored or in-memory credential record in
authenticated mode that is past its expiry and has no refresh credential,
every load, persist, or use point replaces it with a fresh guest record:
none of `normalizeClientAuthState` (load), `persistState` (persist),
`ensureAuthStateOf` and `getOrCreateClientAuthState` (use) ever returns
or stores an expired authenticated credential lacking a refresh
credential. -/
theorem C9_expired_credential_degraded (env : AuthEnv) (gSid gTok : String)
    (v : JSValue) (next current : ClientAuthState) (stored : Option JSValue) :
    (∀ s, normalizeClientAuthState env v = some s → authInvariant env s)
    ∧ authInvariant env (persistState env gSid gTok next)
    ∧ authInvariant env (ensureAuthStateOf env gSid gTok current)
    ∧ authInvariant env (getOrCreateClientAuthState env gSid gTok stored) := by
  refine ⟨fun s hs => authInvariant_normalize env v s hs,
    authInvariant_persist env gSid gTok next, ?_, ?_⟩
  · unfold ensureAuthStateOf
    split
    · exact authInvariant_persist env gSid gTok _
    · next hc =>
        rintro ⟨h1, h2, h3⟩
        exact hc (by simp_all)
  · unfold getOrCreateClientAuthState loadClientAuthState
    cases stored with
    | none => exact authInvariant_guest env gSid gTok env.nowIso
    | some w =>
        cases hn : normalizeClientAuthState env w with
        | none => simpa [hn] using authInvariant_guest env gSid gTok env.nowIso
        | some s => simpa [hn] using authInvariant_normalize env w s hn

/-- A session that started remotely (so it carries the remote numeric id)
and was downgraded to local mode. -/
def downgradedC4 : InterviewSessionRecord :=
  { key := "remote-77-1000"
  , sessionId := "tok-77"
  , mode := .local
  , status := .active
  , position := "后端工程师"
  , jdText := "后端工程师"
  , resumeText := ""
  , resumeContextKey := ""
  , createdAt := "t0"
  , updatedAt := "t0"
  , questionCount := 3
  , answeredCount := 0
  , currentIndex := 0
  , questions := buildLocalQuestions "后端工程师"
  , answers := []
  , feedback := none
  , remoteNumericId := some 77 }

/-- The remote history item matching `downgradedC4` by its remote numeric
id. -/
def wireC4 : JSValue := .obj [("id", .num 77), ("sessionToken", .str "tok-77")]

/-- **C4, counterexample.** A session whose mode has become `local` does
not keep it: history reconciliation (`syncRemoteSessions`) matches the
stored record by remote id and its merge overwrites the mode back to
`remote` — the claim that the mode never returns to remote fails (and the
reconciliation's list fetch is issued unconditionally). -/
theorem C4_counterexample :
    downgradedC4.mode = .local
    ∧ ((syncRemoteSessions "t1" "manual" [downgradedC4]
          (some (.obj [("items", .arr [wireC4])]))).map InterviewSessionRecord.mode)
        = [InterviewMode.remote] := by
  decide

/-- **C4, amended.** Every per-session operation (`submitAnswer`,
`advance`, `pause`, `resume`, `finish`) on a local-mode session issues no
network call and leaves the mode `local`; only history reconciliation
(`syncRemoteSessions`), which always fetches the remote list, can flip a
matched stored record back to `remote` through its merge. -/
theorem C4_local_mode_no_network (now fid input : String)
    (prev : InterviewSessionRecord) (remote : Option JSValue)
    (h : prev.mode = .local) :
    ((submitAnswer now fid prev input remote).networkAttempted = false
      ∧ (submitAnswer now fid prev input remote).record.mode = .local)
    ∧ ((nextQuestion now fid prev remote).networkAttempted = false
      ∧ (nextQuestion now fid prev remote).record.mode = .local)
    ∧ ((pauseSession now prev remote).networkAttempted = false
      ∧ (pauseSession now prev remote).record.mode = .local)
    ∧ ((resumeSession now prev remote).networkAttempted = false
      ∧ (resumeSession now prev remote).record.mode = .local)
    ∧ ((endSession now prev remote).networkAttempted = false
      ∧ (endSession now prev remote).record.mode = .local) := by
  have hmode : ¬ prev.mode = .remote := by rw [h]; decide
  refine ⟨?_, ?_, ?_, ?_, ?_⟩
  · cases hq : currentQuestionOf prev with
    | none => simp [submitAnswer, hq, h]
    | some q =>
        by_cases hs : prev.status = .active
        · by_cases ht : jsTrim input = ""
          · simp [submitAnswer, hq, hs, ht, h]
          · simp [submitAnswer, hq, hs, ht, hmode, applySessionPatch, h]
        · simp [submitAnswer, hq, hs, h]
  · by_cases hs : prev.status = .active
    · simp only [nextQuestion, hs]
      simp [hmode, applySessionPatch]
      split <;> simp [h]
    · simp [nextQuestion, hs, h]
  · by_cases hs : prev.status = .active
    · simp [pauseSession, hs, h, applySessionPatch]
    · simp [pauseSession, hs, h]
  · by_cases hs : prev.status = .paused
    · simp [resumeSession, hs, h, applySessionPatch]
    · simp [resumeSession, hs, h]
  · simp [endSession, hmode, applySessionPatch, h]

/-- Witness for C4 (amended) at a concrete input. -/
theorem C4_local_mode_no_network_witness :
    recC3.mode = .local
    ∧ (submitAnswer "t1" "q-f" recC3 "我的补充回答" none).networkAttempted = false
    ∧ (submitAnswer "t1" "q-f" recC3 "我的补充回答" none).record.mode = .local
    ∧ (nextQuestion "t1" "q-f" recC3 none).networkAttempted = false
    ∧ (nextQuestion "t1" "q-f" recC3 none).record.mode = .local
    ∧ (endSession "t1" recC3 none).networkAttempted = false
    ∧ (endSession "t1" recC3 none).record.mode = .local := by
  have hw := C4_local_mode_no_network "t1" "q-f" "我的补充回答" recC3 none (by decide)
  exact ⟨by decide, hw.1.1, hw.1.2, hw.2.1.1, hw.2.1.2, hw.2.2.2.2.1, hw.2.2.2.2.2⟩

/-- A remote history item whose server-reported index is out of range for
its (empty) question list. -/
def wireC5 : JSValue :=
  .obj [("id", .num 7), ("sessionToken", .str "tok-7"), ("currentIndex", .num 5)]

/-- **C5, counterexample.** Reconciliation of a remote history record
adopts the server index only floor-clamped at 0: with an empty question
list and reported index 5 the produced record violates
`currentIndex < max(1, len(questions))`. -/
theorem C5_counterexample :
    (normalizeRemoteSession "t0" wireC5).map indexBoundB = some false
    ∧ (normalizeRemoteSession "t0" wireC5).map InterviewSessionRecord.currentIndex = some 5
    ∧ (normalizeRemoteSession "t0" wireC5).map
        (fun r => r.questions.length) = some 0 := by
  decide

/-- An index clamped by `Math.min(·, Math.max(len - 1, 0))` satisfies the
invariant bound. -/
theorem clampedIndex_bound (a : Int) (L : Nat) :
    jsMin a (jsMax ((L : Int) - 1) 0) < jsMax 1 (L : Int) := by
  unfold jsMin jsMax
  split_ifs <;> omega

/-- The local advance step preserves the invariant bound. -/
theorem localStep_bound (idx : Int) (L : Nat) (h : idx < jsMax 1 (L : Int)) :
    (if idx ≥ (L : Int) - 1 then idx else idx + 1) < jsMax 1 (L : Int) := by
  unfold jsMax at *
  split_ifs at * <;> omega

/-- **C5, amended.** The session operations preserve the invariant
`currentIndex < max(1, len(questions))` (the remote-adoption paths of
`submitAnswer`/`advance` clamp the server index into range, local advance
caps at the last question, the other operations leave index and questions
untouched); but `start`'s remote path and
`normalizeRemoteSession`/`normalizeRecord` adopt a server/stored index
with no upper clamp, so records produced there can violate the bound. -/
theorem C5_index_bound_preserved (now fid input : String)
    (prev : InterviewSessionRecord) (remote : Option JSValue)
    (h : indexBoundB prev = true) :
    indexBoundB (submitAnswer now fid prev input remote).record = true
    ∧ indexBoundB (nextQuestion now fid prev remote).record = true
    ∧ indexBoundB (pauseSession now prev remote).record = true
    ∧ indexBoundB (resumeSession now prev remote).record = true
    ∧ indexBoundB (endSession now prev remote).record = true := by
  have hp : prev.currentIndex < jsMax 1 (prev.questions.length : Int) := by
    simpa [indexBoundB] using h
  refine ⟨?_, ?_, ?_, ?_, ?_⟩
  · cases hq : currentQuestionOf prev with
    | none => simpa [submitAnswer, hq, indexBoundB] using hp
    | some q =>
        by_cases hs : prev.status = .active
        · by_cases ht : jsTrim input = ""
          · simpa [submitAnswer, hq, hs, ht, indexBoundB] using hp
          · by_cases hm : prev.mode = .remote
            · cases remote with
              | none =>
                  simpa [submitAnswer, hq, hs, ht, hm, indexBoundB,
                    applySessionPatch] using hp
              | some data =>
                  simp [submitAnswer, hq, hs, ht, hm, indexBoundB, applySessionPatch]
                  exact clampedIndex_bound _ _
            · simpa [submitAnswer, hq, hs, ht, hm, indexBoundB,
                applySessionPatch] using hp
        · simpa [submitAnswer, hq, hs, indexBoundB] using hp
  · by_cases hs : prev.status = .active
    · by_cases hm : prev.mode = .remote
      · cases remote with
        | none =>
            simp only [nextQuestion, hs, hm]
            simp [indexBoundB, applySessionPatch]
            split
            · next hge => simpa [indexBoundB] using hp
            · next hlt =>
                dsimp only
                unfold jsMax at hp ⊢
                split_ifs at hp ⊢ <;> omega
        | some data =>
            simp [nextQuestion, hs, hm, indexBoundB, applySessionPatch]
            exact clampedIndex_bound _ _
      · simp only [nextQuestion, hs, hm]
        simp [indexBoundB, applySessionPatch]
        split
        · next hge => simpa [indexBoundB] using hp
        · next hlt =>
            dsimp only
            unfold jsMax at hp ⊢
            split_ifs at hp ⊢ <;> omega
    · simpa [nextQuestion, hs, indexBoundB] using hp
  · by_cases hs : prev.status = .active
    · simpa [pauseSession, hs, indexBoundB, applySessionPatch] using hp
    · simpa [pauseSession, hs, indexBoundB] using hp
  · by_cases hs : prev.status = .paused
    · simpa [resumeSession, hs, indexBoundB, applySessionPatch] using hp
    · simpa [resumeSession, hs, indexBoundB] using hp
  · by_cases hm : prev.mode = .remote
    · cases remote with
      | none => simpa [endSession, hm, indexBoundB, applySessionPatch] using hp
      | some data => simpa [endSession, hm, indexBoundB, applySessionPatch] using hp
    · simpa [endSession, hm, indexBoundB, applySessionPatch] using hp

/-- Witness for C5 (amended) at a concrete input. -/
theorem C5_index_bound_preserved_witness :
    indexBoundB recC3 = true
    ∧ indexBoundB (submitAnswer "t1" "q-f" recC3 "回答" none).record = true
    ∧ indexBoundB (nextQuestion "t1" "q-f" recC3 none).record = true
    ∧ indexBoundB (endSession "t1" recC3 none).record = true := by
  have hw := C5_index_bound_preserved "t1" "q-f" "回答" recC3 none (by decide)
  exact ⟨by decide, hw.1, hw.2.1, hw.2.2.2.2⟩

/-- A remote, in-progress session with three questions at index 0. -/
def recC8 : InterviewSessionRecord :=
  { key := "remote-9-1000"
  , sessionId := "9"
  , mode := .remote
  , status := .active
  , position := "后端工程师"
  , jdText := "后端工程师"
  , resumeText := ""
  , resumeContextKey := "manual"
  , createdAt := "t0"
  , updatedAt := "t0"
  , questionCount := 3
  , answeredCount := 0
  , currentIndex := 0
  , questions := buildLocalQuestions "后端工程师"
  , answers := []
  , feedback := none
  , remoteNumericId := some 9 }

/-- An advance response whose server-reported index (10) is out of range
for the three known questions. -/
def payloadC8 : JSValue := .obj [("session", .obj [("currentIndex", .num 10)])]

/-- **C8, counterexample.** In remote mode `advance()` does not adopt the
server's reported index verbatim: with 3 questions and a reported index of
10 the resulting index is 2 (clamped to the last question), not 10. -/
theorem C8_counterexample :
    (nextQuestion "t1" "q-f" recC8 (some payloadC8)).record.currentIndex = 2
    ∧ (nextQuestion "t1" "q-f" recC8 (some payloadC8)).record.currentIndex ≠ 10 := by
  decide

/-- **C8, amended.** `advance()` on an IN_PROGRESS session: in local mode
it leaves `currentIndex` unchanged when it already equals (or exceeds) the
last question index and otherwise increments it by exactly 1; in remote
mode it adopts the server's reported status (normalized, defaulting to the
previous one) and the server's reported index clamped into
`[0, max(len-1, 0)]` of the question list obtained by appending a newly
seen question exactly when no existing question shares its id. -/
theorem C8_advance_behaviour (now fid : String) (prev : InterviewSessionRecord)
    (remote : Option JSValue) (data : JSValue) (i : Int)
    (hact : prev.status = .active) :
    (prev.mode = .local → prev.currentIndex ≥ (prev.questions.length : Int) - 1 →
      (nextQuestion now fid prev remote).record.currentIndex = prev.currentIndex)
    ∧ (prev.mode = .local → prev.currentIndex < (prev.questions.length : Int) - 1 →
      (nextQuestion now fid prev remote).record.currentIndex = prev.currentIndex + 1)
    ∧ (prev.mode = .remote →
        (nextQuestion now fid prev (some data)).record.questions
          = advanceQuestions prev.questions (maybeNextOf fid data)
        ∧ (nextQuestion now fid prev (some data)).record.status
          = normalizeStatus (jsOr ((sessionPayloadOf data).getField "status")
              (.str (statusWire prev.status)))
        ∧ (toSafeNumber ((sessionPayloadOf data).getField "currentIndex") = some i →
            (nextQuestion now fid prev (some data)).record.currentIndex
              = jsMin (jsMax 0 i)
                  (jsMax (((advanceQuestions prev.questions
                      (maybeNextOf fid data)).length : Int) - 1) 0)))
    ∧ (∀ nq, maybeNextOf fid data = some nq →
        (prev.questions.any (fun q' => q'.id = nq.id) = true →
          advanceQuestions prev.questions (some nq) = prev.questions)
        ∧ (prev.questions.any (fun q' => q'.id = nq.id) = false →
          advanceQuestions prev.questions (some nq) = prev.questions ++ [nq])) := by
  refine ⟨?_, ?_, ?_, ?_⟩
  · intro hm hge
    simp [nextQuestion, hact, hm, applySessionPatch, hge]
  · intro hm hlt
    have hne : ¬ prev.currentIndex ≥ (prev.questions.length : Int) - 1 := by omega
    simp [nextQuestion, hact, hm, applySessionPatch, hne]
  · intro hm
    refine ⟨?_, ?_, ?_⟩
    · simp [nextQuestion, hact, hm, applySessionPatch]
    · simp [nextQuestion, hact, hm, applySessionPatch]
    · intro hidx
      simp [nextQuestion, hact, hm, applySessionPatch, advanceNextIndex, hidx]
  · intro nq hnq
    constructor
    · intro hany; simp [advanceQuestions, hany]
    · intro hnot; simp [advanceQuestions, hnot]

/-- A local, in-progress session already at its last question index. -/
def recC8L : InterviewSessionRecord :=
  { recC8 with
      key := "local-8"
      sessionId := "local-8"
      mode := .local
      currentIndex := 2
      remoteNumericId := none }

/-- Witness for C8 (amended) at a concrete input. -/
theorem C8_advance_behaviour_witness :
    recC8L.status = .active
    ∧ recC8L.currentIndex = 2
    ∧ (nextQuestion "t1" "q-f" recC8L none).record.currentIndex = recC8L.currentIndex := by
  have hw := C8_advance_behaviour "t1" "q-f" recC8L none payloadC8 10 (by decide)
  exact ⟨by decide, by decide, hw.1 (by decide) (by decide)⟩

/-- Persisting a fresh guest record stores it unchanged. -/
theorem persistState_guest (env : AuthEnv) (gSid gTok nowIso : String) :
    persistState env gSid gTok (createGuestAuthState gSid gTok nowIso)
      = createGuestAuthState gSid gTok nowIso := by
  simp [persistState, createGuestAuthState]

/-- Without a refresh credential the refresh loop is never entered. -/
theorem tryAutoRefreshAuth_no_token (env : AuthEnv) (cur : ClientAuthState)
    (attempts : List (List RefreshAttempt)) (h : cur.refreshToken = none) :
    tryAutoRefreshAuth env cur attempts = none := by
  simp [tryAutoRefreshAuth, h]

/-- **C7.** When a request under an authenticated credential returns an
authorization failure (HTTP 401): the client replays the original request
at most once, and exactly once after a successful refresh cycle; whenever
a reason is surfaced, the stored credential has been replaced by a fresh
guest credential; with a refresh credential present the surfaced reason
can only be `refresh_failed`; with none, no replay happens and the reason
is `expired`/`unauthorized` according to expiry; when the refresh cycle
yields nothing a reason is always surfaced; and the interview-session
store is never modified by this path. -/
theorem C7_auth_failure_handling (env : AuthEnv) (gSid gTok : String)
    (auth0 : ClientAuthState) (sessions : List InterviewSessionRecord)
    (first : FetchResponse) (refreshAttempts : List (List RefreshAttempt))
    (retry : FetchResponse)
    (h401 : first.status = 401)
    (hmode : (ensureAuthStateOf env gSid gTok auth0).mode = .custom) :
    (apiFetch env gSid gTok auth0 sessions first refreshAttempts retry).replays ≤ 1
    ∧ (apiFetch env gSid gTok auth0 sessions first refreshAttempts retry).replays
        = (if (tryAutoRefreshAuth env (ensureAuthStateOf env gSid gTok auth0)
            refreshAttempts).isSome then 1 else 0)
    ∧ (apiFetch env gSid gTok auth0 sessions first refreshAttempts retry).sessions
        = sessions
    ∧ ((apiFetch env gSid gTok auth0 sessions first refreshAttempts retry).reason ≠ none →
        (apiFetch env gSid gTok auth0 sessions first refreshAttempts retry).auth
            = createGuestAuthState gSid gTok env.nowIso
          ∧ (apiFetch env gSid gTok auth0 sessions first refreshAttempts retry).auth.mode
            = .local
          ∧ (apiFetch env gSid gTok auth0 sessions first
              refreshAttempts retry).auth.refreshToken = none)
    ∧ ((ensureAuthStateOf env gSid gTok auth0).refreshToken.isSome = true →
        (apiFetch env gSid gTok auth0 sessions first refreshAttempts retry).reason = none
        ∨ (apiFetch env gSid gTok auth0 sessions first refreshAttempts retry).reason
            = some .refresh_failed)
    ∧ ((ensureAuthStateOf env gSid gTok auth0).refreshToken = none →
        (apiFetch env gSid gTok auth0 sessions first refreshAttempts retry).replays = 0
        ∧ (apiFetch env gSid gTok auth0 sessions first refreshAttempts retry).reason
            = some (if isAuthExpiredState env (ensureAuthStateOf env gSid gTok auth0)
                then AuthFailureReason.expired else .unauthorized))
    ∧ (tryAutoRefreshAuth env (ensureAuthStateOf env gSid gTok auth0) refreshAttempts
          = none →
        ((apiFetch env gSid gTok auth0 sessions first
            refreshAttempts retry).reason).isSome = true) := by
  set cur := ensureAuthStateOf env gSid gTok auth0 with hcurdef
  cases hc : tryAutoRefreshAuth env cur refreshAttempts with
  | none =>
      have ho : apiFetch env gSid gTok auth0 sessions first refreshAttempts retry =
          { responseStatus := first.status
          , auth := createGuestAuthState gSid gTok env.nowIso
          , reason := some (if cur.refreshToken.isSome then .refresh_failed
              else if isAuthExpiredState env cur then .expired else .unauthorized)
          , replays := 0
          , sessions := sessions } := by
        rw [apiFetch, ← hcurdef]
        rw [if_neg (by simp [h401, hmode])]
        cases hrt : cur.refreshToken with
        | none => simp [hrt, persistState_guest, hc]
        | some r => simp [hrt, hc, persistState_guest]
      rw [ho]
      refine ⟨by simp, by simp [hc], rfl, ?_, ?_, ?_, by simp⟩
      · intro _
        exact ⟨rfl, rfl, rfl⟩
      · intro hrt
        right
        simp [hrt]
      · intro hrt
        exact ⟨rfl, by simp [hrt]⟩
  | some cand =>
      have hrt : cur.refreshToken.isSome = true := by
        cases hr : cur.refreshToken with
        | none =>
            exact absurd hc (by simp [tryAutoRefreshAuth_no_token env cur refreshAttempts hr])
        | some r => rfl
      by_cases hretry : (retry.ok || retry.status ≠ 401) = true
      · have ho : apiFetch env gSid gTok auth0 sessions first refreshAttempts retry =
            { responseStatus := retry.status
            , auth := persistState env gSid gTok (syncAuthStateFromResponse env
                (persistState env gSid gTok cand) retry.sessionIdHeader)
            , reason := none
            , replays := 1
            , sessions := sessions } := by
          rw [apiFetch, ← hcurdef]
          rw [if_neg (by simp [h401, hmode])]
          simp only [hrt, hc, if_true, Bool.if_true_left]
          rw [if_pos hretry]
        rw [ho]
        refine ⟨by simp, by simp [hc], rfl, ?_, fun _ => Or.inl rfl, ?_, ?_⟩
        · intro hr; exact absurd rfl hr
        · intro hnone; rw [hnone] at hrt; cases hrt
        · intro hn; simp [hc] at hn
      · have ho : apiFetch env gSid gTok auth0 sessions first refreshAttempts retry =
            { responseStatus := retry.status
            , auth := createGuestAuthState gSid gTok env.nowIso
            , reason := some (if cur.refreshToken.isSome then .refresh_failed
                else if isAuthExpiredState env cur then .expired else .unauthorized)
            , replays := 1
            , sessions := sessions } := by
          rw [apiFetch, ← hcurdef]
          rw [if_neg (by simp [h401, hmode])]
          simp only [hrt, hc, if_true]
          rw [if_neg hretry]
          simp [persistState_guest]
        rw [ho]
        refine ⟨by simp, by simp [hc], rfl, ?_, ?_, ?_, by simp⟩
        · intro _
          exact ⟨rfl, rfl, rfl⟩
        · intro _
          right
          simp [hrt]
        · intro hnone; rw [hnone] at hrt; cases hrt

/-- Concrete environment for the C7 witness: no date ever parses, so no
credential is expired. -/
def envC7 : AuthEnv :=
  { nowMs := 0, nowIso := "t-now", parseMs := fun _ => none, msToIso := fun _ => "t-iso" }

/-- An authenticated credential with a refresh credential. -/
def authC7 : ClientAuthState :=
  { sessionId := "sess-1"
  , accessToken := "tok-1"
  , refreshToken := some "refresh-1"
  , mode := .custom
  , updatedAt := "t0"
  , userName := some "候选人"
  , expiresAt := none }

/-- Two refresh attempts that both fail (a 500 payload shape, then a
network error). -/
def attemptsC7 : List (List RefreshAttempt) :=
  [[.resp { status := 500 }], [.netError]]

/-- The original 401 response. -/
def firstC7 : FetchResponse := { status := 401 }

/-- The (never used) retry response. -/
def retryC7 : FetchResponse := { status := 401 }

/-- Witness for C7 at a concrete input: both refresh attempts fail, so the
request is never replayed, a reason is surfaced, the session list is
untouched and the stored credential becomes a fresh guest one. -/
theorem C7_auth_failure_handling_witness :
    firstC7.status = 401
    ∧ (ensureAuthStateOf envC7 "g-sid" "g-tok" authC7).mode = .custom
    ∧ (apiFetch envC7 "g-sid" "g-tok" authC7 [] firstC7 attemptsC7 retryC7).sessions = []
    ∧ (apiFetch envC7 "g-sid" "g-tok" authC7 [] firstC7 attemptsC7 retryC7).replays = 0
    ∧ ((apiFetch envC7 "g-sid" "g-tok" authC7 [] firstC7 attemptsC7 retryC7).reason).isSome
        = true
    ∧ (apiFetch envC7 "g-sid" "g-tok" authC7 [] firstC7 attemptsC7 retryC7).auth.mode
        = .local := by
  have hw := C7_auth_failure_handling envC7 "g-sid" "g-tok" authC7 [] firstC7 attemptsC7
    retryC7 (by decide) (by decide)
  have hsome := hw.2.2.2.2.2.2 (by decide)
  have hguest := hw.2.2.2.1 (by
    intro h
    rw [h] at hsome
    cases hsome)
  refine ⟨by decide, by decide, hw.2.2.1, ?_, hsome, hguest.2.1⟩
  rw [hw.2.1]
  decide
